import Mathlib

/-!
Verification of the WhatsApp webhook service (`main.py`): identity
resolution cache, enrichment pipeline, OTP session store, and the
multi-tenant outbound messaging gateway.  Python dictionaries holding
string keys are modelled as functions `String → Option _`; Python
truthiness of strings (`if s:`) is the test `s ≠ ""` on present values.
-/

namespace Whatsapp

/-- Python truthiness of an optional string: `None` and `""` are falsy. -/
def truthy : Option String → Bool
  | none => false
  | some s => !(s == "")

/-- The chat-name cache (Elasticsearch index `CACHE_INDEX`), keyed by chat id. -/
def Cache := String → Option String

/-- Read a chat name from the cache (`get_chat_name_from_cache`): a missing
document yields `None`. -/
def get_chat_name_from_cache (c : Cache) (chat_id : String) : Option String :=
  c chat_id

/-- Write a chat name to the cache (`save_chat_name_to_cache`): an
unconditional upsert at key `chat_id`. -/
def save_chat_name_to_cache (c : Cache) (chat_id chat_name : String) : Cache :=
  fun x => if x = chat_id then some chat_name else c x

/-- Python `str.isdigit()` for ASCII digits: nonempty and all digits. -/
def pyIsDigit (s : String) : Bool :=
  !(s == "") && s.data.all Char.isDigit

/-- Result of `requests.get(PERISKOPE_API_BASE_URL + "chat/" + id)`:
a 200 response with parsed JSON body (optional `chat_name` field and a
`members` map of contact id to optional `contact_name`), a non-200 status,
a raised network error (timeout, connection error), or a 200 response
whose body fails to parse (`response.json()` raises). -/
inductive FetchResult where
  | ok (chat_name : Option String) (members : List (String × Option String))
  | badStatus (code : Nat)
  | netError
  | badBody
deriving DecidableEq

/-- One chat entry of the `GET /chats` bulk listing. -/
structure ChatEntry where
  chat_id : Option String
  chat_name : Option String
  members : List (String × Option String)

/-- Result of `requests.get(PERISKOPE_API_BASE_URL + "chats")`. -/
inductive ListResult where
  | ok (chats : List ChatEntry)
  | badStatus (code : Nat)
  | netError

/-- Environment of the directory client: the Periskope credentials
(`PERISKOPE_API_KEY`, `PERISKOPE_ORG_PHONE`, `None` when the environment
variable is unset) and the remote directory's deterministic responses. -/
structure DirEnv where
  apiKey : Option String
  orgPhone : Option String
  fetchChat : String → FetchResult
  fetchAllChats : ListResult

/-- Both Periskope credentials are configured (truthy), as tested by
`if not PERISKOPE_API_KEY or not PERISKOPE_ORG_PHONE`. -/
def DirEnv.creds (env : DirEnv) : Bool :=
  truthy env.apiKey && truthy env.orgPhone

/-- Cache the member contact names of a directory response
(the member loop shared by `get_chat_name` and
`bulk_fetch_and_cache_groups`): each member with a truthy
`contact_name` and a truthy contact id is written only when
`get_chat_name_from_cache` finds nothing truthy for it. -/
def cache_members (members : List (String × Option String)) (c : Cache) : Cache :=
  match members with
  | [] => c
  | (contact_id, contact_name) :: rest =>
    match contact_name with
    | some nm =>
      if nm ≠ "" ∧ contact_id ≠ "" then
        if truthy (get_chat_name_from_cache c contact_id) then
          cache_members rest c
        else
          cache_members rest (save_chat_name_to_cache c contact_id nm)
      else cache_members rest c
    | none => cache_members rest c

/-- The identity cache's resolution operation (`get_chat_name`): exact cache
hit, then the `id + "@c.us"` fallback for purely numeric ids, then the
directory client when credentials are configured; a successful directory
response writes the chat name unconditionally and member names only when
absent, every failure path degrades to returning `chat_id` with the cache
untouched.  The function is total, so it models the source's guarantee of
always returning a string without raising. -/
def get_chat_name (env : DirEnv) (c : Cache) (chat_id : String) :
    String × Cache :=
  match get_chat_name_from_cache c chat_id with
  | some n =>
    if n ≠ "" then (n, c)
    else get_chat_name_suffix env c chat_id
  | none => get_chat_name_suffix env c chat_id
where
  /-- Step 2: the `@c.us` suffix fallback for numeric identifiers. -/
  get_chat_name_suffix (env : DirEnv) (c : Cache) (chat_id : String) :
      String × Cache :=
    if pyIsDigit chat_id then
      match get_chat_name_from_cache c (chat_id ++ "@c.us") with
      | some n =>
        if n ≠ "" then (n, c)
        else get_chat_name_api env c chat_id
      | none => get_chat_name_api env c chat_id
    else get_chat_name_api env c chat_id
  /-- Steps 3-5: directory call guarded by the credential check. -/
  get_chat_name_api (env : DirEnv) (c : Cache) (chat_id : String) :
      String × Cache :=
    if env.creds then
      match env.fetchChat chat_id with
      | .ok chat_name_field members =>
        let chat_name := chat_name_field.getD chat_id
        let c1 := save_chat_name_to_cache c chat_id chat_name
        (chat_name, cache_members members c1)
      | .badStatus _ => (chat_id, c)
      | .netError => (chat_id, c)
      | .badBody => (chat_id, c)
    else (chat_id, c)

/-- Outcome of `bulk_fetch_and_cache_groups`: the summary dict on success
(`total_chats`, `newly_cached_chats`, `newly_cached_members`,
`already_cached`) or one of the error dicts. -/
inductive BulkResult where
  | success (total_chats newly_cached_chats newly_cached_members already_cached : Nat)
  | errorNoCreds
  | errorStatus (code : Nat)
  | errorExn
deriving DecidableEq

/-- Folding state of the bulk sync: the evolving cache plus the
`cached_chats` and `cached_members` counters. -/
structure BulkState where
  cache : Cache
  cached_chats : Nat
  cached_members : Nat

/-- Member loop of the bulk sync: identical write-if-absent policy to
`cache_members`, additionally counting newly cached members. -/
def bulk_cache_members : List (String × Option String) → BulkState → BulkState
  | [], st => st
  | (contact_id, contact_name) :: rest, st =>
    match contact_name with
    | some nm =>
      if nm ≠ "" ∧ contact_id ≠ "" then
        if truthy (get_chat_name_from_cache st.cache contact_id) then
          bulk_cache_members rest st
        else
          bulk_cache_members rest
            ⟨save_chat_name_to_cache st.cache contact_id nm,
             st.cached_chats, st.cached_members + 1⟩
      else bulk_cache_members rest st
    | none => bulk_cache_members rest st

/-- Per-chat step of the bulk sync: the chat's own name is written
**only when no truthy cache entry exists for it** (the source guards the
write with `existing = get_chat_name_from_cache(chat_id); if not
existing:`), then the members are cached write-if-absent. -/
def bulk_cache_chat (chat : ChatEntry) (st : BulkState) : BulkState :=
  let st1 : BulkState :=
    match chat.chat_id, chat.chat_name with
    | some cid, some cnm =>
      if cid ≠ "" ∧ cnm ≠ "" then
        if truthy (get_chat_name_from_cache st.cache cid) then st
        else ⟨save_chat_name_to_cache st.cache cid cnm,
              st.cached_chats + 1, st.cached_members⟩
      else st
    | _, _ => st
  bulk_cache_members chat.members st1

/-- The bulk sync pass (`bulk_fetch_and_cache_groups`): list all chats from
the directory and cache chats and members, returning the summary counts. -/
def bulk_fetch_and_cache_groups (env : DirEnv) (c : Cache) : BulkResult × Cache :=
  if env.creds then
    match env.fetchAllChats with
    | .ok chats =>
      let st := chats.foldl (fun st chat => bulk_cache_chat chat st) ⟨c, 0, 0⟩
      (.success chats.length st.cached_chats st.cached_members
        (chats.length - st.cached_chats), st.cache)
    | .badStatus code => (.errorStatus code, c)
    | .netError => (.errorExn, c)
  else (.errorNoCreds, c)

/-- Scanner for the regular expression `@(\d+)` over the character list of a
message body, exactly as `re.findall` matches it: left to right,
non-overlapping, each match consuming a maximal nonempty run of digits
after an `@`, returning the digit groups in order (duplicates kept). -/
def findMentions_go : Nat → List Char → List String
  | 0, _ => []
  | _ + 1, [] => []
  | fuel + 1, ch :: rest =>
    if ch = '@' then
      let ds := rest.takeWhile Char.isDigit
      if ds.isEmpty then findMentions_go fuel rest
      else String.mk ds :: findMentions_go fuel (rest.drop ds.length)
    else findMentions_go fuel rest

/-- All mention tokens `@digits` of a body (`re.findall(r'@(\d+)', body)`).
The fuel equals the input length, which bounds the scanner's steps (each
step consumes at least one character). -/
def findMentions (s : String) : List String :=
  findMentions_go s.data.length s.data

/-- Replace every non-overlapping occurrence of `pat` in the subject,
scanning left to right, as Python `str.replace` does (the pattern is
nonempty at every call site: it is `"@"` followed by digits). -/
def replace_go (pat rep : List Char) : Nat → List Char → List Char
  | 0, s => s
  | _ + 1, [] => []
  | fuel + 1, ch :: rest =>
    if (ch :: rest).take pat.length = pat then
      rep ++ replace_go pat rep fuel ((ch :: rest).drop pat.length)
    else
      ch :: replace_go pat rep fuel rest

/-- Python `body.replace(old, new)` on strings (all occurrences; the
pattern is nonempty at every call site, being `"@"` followed by digits,
so the subject's length bounds the scanner's steps). -/
def pyReplace (s pat rep : String) : String :=
  if pat.data.isEmpty then s
  else String.mk (replace_go pat.data rep.data s.data.length s.data)

/-- The mention-rewriting loop of `process_webhook_message`: for each
scanned token, resolve the digits through the cache and replace all
occurrences of `"@" + digits` only when the resolved name is truthy and
differs from the digits (`if contact_name and contact_name != phone`). -/
def replace_mentions_go (env : DirEnv) :
    List String → String → Cache → String × Cache
  | [], body, c => (body, c)
  | phone :: rest, body, c =>
    let r := get_chat_name env c phone
    if r.1 ≠ "" ∧ r.1 ≠ phone then
      replace_mentions_go env rest (pyReplace body ("@" ++ phone) r.1) r.2
    else
      replace_mentions_go env rest body r.2

/-- Mention rewriting of one message body. -/
def replace_mentions (env : DirEnv) (c : Cache) (body : String) :
    String × Cache :=
  replace_mentions_go env (findMentions body) body c

/-- The raw `id` field of an inbound event: a scalar identifier or a nested
object (which the pipeline relocates to `id_details`). -/
inductive IdVal where
  | str (s : String)
  | obj (fields : List (String × String))
deriving DecidableEq

/-- The fields of a decoded webhook event's `data` map that the pipeline
reads or rewrites; `Option` records presence of the key. -/
structure MsgData where
  chat_id : Option String
  sender_phone : Option String
  from_me : Bool
  body : Option String
  message_id : Option String
  idField : Option IdVal
deriving DecidableEq

/-- The enriched document indexed into the message store. -/
structure Doc where
  event : String
  chat_id : Option String
  sender_phone : Option String
  from_me : Bool
  body : Option String
  message_id : Option String
  idScalar : Option String
  id_details : Option (List (String × String))
  chat_name : Option String
  sender_name : Option String
deriving DecidableEq

/-- The Elasticsearch state touched by the pipeline: the chat-name cache,
the message index keyed by message id, and the documents indexed without
an explicit id (the store assigns their keys). -/
structure ESState where
  cache : Cache
  msgs : String → Option Doc
  unkeyed : List Doc

/-- Document-building half of `process_webhook_message`: relocate a
dict-valued `id`, attach `chat_name` and (for messages not from the owner)
`sender_name` via the identity cache, and rewrite mention tokens inside
the body, threading the cache through the three resolution steps. -/
def enrich_doc (env : DirEnv) (c : Cache) (event : String) (d : MsgData) :
    Doc × Cache :=
  let idScalar : Option String :=
    match d.idField with
    | some (.str s) => some s
    | _ => none
  let id_details : Option (List (String × String)) :=
    match d.idField with
    | some (.obj f) => some f
    | _ => none
  let step1 : Option String × Cache :=
    match d.chat_id with
    | some cid =>
      let r := get_chat_name env c cid
      (some r.1, r.2)
    | none => (none, c)
  let step2 : Option String × Cache :=
    match d.sender_phone with
    | some sp =>
      if !d.from_me then
        let r := get_chat_name env step1.2 sp
        (some r.1, r.2)
      else (none, step1.2)
    | none => (none, step1.2)
  let step3 : Option String × Cache :=
    match d.body with
    | some b =>
      if b ≠ "" then
        let r := replace_mentions env step2.2 b
        (some r.1, r.2)
      else (some b, step2.2)
    | none => (none, step2.2)
  ({ event := event, chat_id := d.chat_id, sender_phone := d.sender_phone,
     from_me := d.from_me, body := step3.1, message_id := d.message_id,
     idScalar := idScalar, id_details := id_details,
     chat_name := step1.1, sender_name := step2.1 }, step3.2)

/-- The enrichment pipeline (`process_webhook_message`): build the
enriched document, then index it keyed by `message_id`
(`doc.get('message_id') or doc.get('id')`, the latter only when the raw
`id` was a scalar), overwriting any prior document under that key; when no
truthy key is available the store assigns one. -/
def process_webhook_message (env : DirEnv) (event : String) (d : MsgData)
    (st : ESState) : ESState :=
  let r := enrich_doc env st.cache event d
  let doc := r.1
  let mid : Option String :=
    if truthy d.message_id then d.message_id else doc.idScalar
  match mid with
  | some m =>
    if m ≠ "" then
      { cache := r.2,
        msgs := fun x => if x = m then some doc else st.msgs x,
        unkeyed := st.unkeyed }
    else { cache := r.2, msgs := st.msgs, unkeyed := doc :: st.unkeyed }
  | none => { cache := r.2, msgs := st.msgs, unkeyed := doc :: st.unkeyed }

/-- One OTP session (`otp_store[phone]`): the 6-digit code and the epoch
expiry `time.time() + 300`. -/
structure OtpEntry where
  otp : String
  expires : Int
deriving DecidableEq

/-- The in-memory OTP session store, keyed by phone. -/
def OtpStore := String → Option OtpEntry

/-- Delete a session (`del otp_store[phone]`). -/
def otp_erase (s : OtpStore) (p : String) : OtpStore :=
  fun x => if x = p then none else s x

/-- Store a session (`otp_store[phone] = {...}`), overwriting any prior. -/
def otp_insert (s : OtpStore) (p : String) (e : OtpEntry) : OtpStore :=
  fun x => if x = p then some e else s x

/-- Outcome of `POST /auth/verify-otp` up to OTP acceptance; the
user-record lookup and JWT issuance that follow acceptance are external
collaborators outside this subsystem. -/
inductive VerifyResult where
  | missingFields
  | notRequested
  | expired
  | invalid
  | accepted
deriving DecidableEq

/-- The OTP verification endpoint (`verify_otp`): reject a missing or
falsy phone/otp field, then run the session state machine — no session
fails "not requested"; a session past its expiry is deleted and fails
"expired" before any code comparison; a code mismatch fails "invalid"
leaving the session in place; an exact match deletes the session and
accepts. -/
def verify_otp (s : OtpStore) (now : Int) (phone otp : Option String) :
    VerifyResult × OtpStore :=
  match phone, otp with
  | some p, some o =>
    if p = "" ∨ o = "" then (.missingFields, s)
    else
      match s p with
      | none => (.notRequested, s)
      | some e =>
        if now > e.expires then (.expired, otp_erase s p)
        else if e.otp ≠ o then (.invalid, s)
        else (.accepted, otp_erase s p)
  | _, _ => (.missingFields, s)

/-- Environment of `send_periskope_message`: the Periskope credentials and
whether the provider accepts a given `POST message/send` (2xx response). -/
structure PeriskopeSendEnv where
  apiKey : Option String
  orgPhone : Option String
  postOk : String → String → Bool

/-- Send a text through Periskope (`send_periskope_message`): `False` when
either credential is missing, or when the POST errors or returns non-2xx;
`True` on success.  The chat id posted is `"91" + phone`. -/
def send_periskope_message (env : PeriskopeSendEnv) (phone text : String) :
    Bool :=
  if truthy env.apiKey && truthy env.orgPhone then
    env.postOk ("91" ++ phone) text
  else false

/-- Response of `POST /auth/login-otp`. -/
inductive LoginResult where
  | badRequest
  | devOtp (dev_otp : String)
  | sent
deriving DecidableEq

/-- The login endpoint (`login_otp`): require a truthy phone, store a fresh
session `{otp, now + 300}` overwriting any prior one, send the code via
Periskope; when the send fails, the response carries the code in its
`dev_otp` field. -/
def login_otp (env : PeriskopeSendEnv) (now : Int) (phone : Option String)
    (otpGen : String) (s : OtpStore) : LoginResult × OtpStore :=
  match phone with
  | some p =>
    if p = "" then (.badRequest, s)
    else
      let s' := otp_insert s p ⟨otpGen, now + 300⟩
      let message := "Your Markwave Messaging App Login OTP is: " ++ otpGen
        ++ "\n\nLogin at https://messaging.markwave.com/"
      if send_periskope_message env p message then (.sent, s')
      else (.devOtp otpGen, s')
  | none => (.badRequest, s)

/-- One tenant's entry of `APP_CONFIG`: Meta access token, phone number id
and template name, each possibly unset in the environment. -/
structure TenantConfig where
  token : Option String
  phone_id : Option String
  template : String
deriving DecidableEq

/-- Python `str.lower()` (ASCII), as applied to application names. -/
def pyLower (s : String) : String :=
  String.mk (s.data.map Char.toLower)

/-- The `APP_CONFIG` map from application name to tenant configuration. -/
def AppConfig := String → Option TenantConfig

/-- Phone normalization of the Meta senders: strip non-digits
(`re.sub(r'\D', '', mobile)`) and prefix "91" when exactly 10 digits
remain. -/
def clean_mobile (mobile : String) : String :=
  let d := String.mk (mobile.data.filter Char.isDigit)
  if d.length = 10 then "91" ++ d else d

/-- Outcome of the `requests.post` to the Meta graph endpoint: a parsed
JSON body (which may or may not contain an "error" key) or a raised
exception. -/
inductive MetaPostResult where
  | json (hasErrorKey : Bool)
  | exn
deriving DecidableEq

/-- Environment of the Meta senders: the provider's response as a function
of the posting phone id and the normalized destination number. -/
structure MetaEnv where
  post : String → String → MetaPostResult

/-- Return value of `send_meta_whatsapp_otp` and
`send_whatsapp_marketing_template`: the config-error dict
`{"status": "error", "message": ...}` (returned **without** attempting the
network call), the provider's parsed JSON, or the exception fallback dict
`{"result": False, "message": ...}`. -/
inductive MetaSendResult where
  | configError (message : String)
  | providerJson (hasErrorKey : Bool)
  | exnDict (message : String)
deriving DecidableEq

/-- Python `"error" in result` on the returned dict: the config-error dict
has keys "status"/"message" and the exception dict has keys
"result"/"message", so only a provider JSON body can contain the key. -/
def meta_result_has_error_key : MetaSendResult → Bool
  | .configError _ => false
  | .providerJson b => b
  | .exnDict _ => false

/-- Send a WhatsApp OTP template through the Meta Cloud API
(`send_meta_whatsapp_otp`): look up the tenant by lower-cased app name;
when the config is missing or its token or phone id is falsy, return the
config-error dict without posting; otherwise post and return the parsed
body, or the fallback dict when the post raises. -/
def send_meta_whatsapp_otp (cfg : AppConfig) (menv : MetaEnv)
    (mobile otp app_name : String) : MetaSendResult :=
  match cfg (pyLower app_name) with
  | none => .configError ("Credentials missing for " ++ app_name)
  | some c =>
    if truthy c.token && truthy c.phone_id then
      match menv.post (c.phone_id.getD "") (clean_mobile mobile) with
      | .json b => .providerJson b
      | .exn => .exnDict "exception"
    else .configError ("Credentials missing for " ++ app_name)

/-- Send a marketing template through the Meta Cloud API
(`send_whatsapp_marketing_template`): the same tenant lookup and
credential guard as the OTP sender; the template payload differs but not
the control flow the claims concern. -/
def send_whatsapp_marketing_template (cfg : AppConfig) (menv : MetaEnv)
    (mobile app_name template_name : String) (body_params : List String)
    (header_image_url : Option String) : MetaSendResult :=
  match cfg (pyLower app_name) with
  | none => .configError ("Credentials missing for " ++ app_name)
  | some c =>
    if truthy c.token && truthy c.phone_id then
      match menv.post (c.phone_id.getD "") (clean_mobile mobile) with
      | .json b => .providerJson b
      | .exn => .exnDict "exception"
    else .configError ("Credentials missing for " ++ app_name)

/-- The `WhatsAppOTPResponse` body of the OTP endpoints. -/
structure WhatsAppOTPResponse where
  statuscode : Nat
  status : String
  message : String
  otp : Option String
deriving DecidableEq

/-- `POST /send-whatsapp-otp` (`send_whatsapp_otp_endpoint`): reject app
names absent from `APP_CONFIG` with a 400; otherwise generate and store an
OTP session for the mobile, attempt the Meta send, and answer 500 when the
result dict carries an "error" key, else 200 with the plaintext code in
the `otp` field. -/
def send_whatsapp_otp_endpoint (cfg : AppConfig) (menv : MetaEnv)
    (mobile appName : String) (otpGen : String) (now : Int) (s : OtpStore) :
    WhatsAppOTPResponse × OtpStore :=
  let app_name := pyLower appName
  match cfg app_name with
  | none =>
    ({ statuscode := 400, status := "error",
       message := "Unsupported app: " ++ app_name, otp := none }, s)
  | some _ =>
    let s' := otp_insert s mobile ⟨otpGen, now + 300⟩
    let result := send_meta_whatsapp_otp cfg menv mobile otpGen app_name
    if meta_result_has_error_key result then
      ({ statuscode := 500, status := "error",
         message := "Failed to send OTP", otp := none }, s')
    else
      ({ statuscode := 200, status := "success",
         message := "OTP sent successfully", otp := some otpGen }, s')

/-- A JSON value, for the `data` field of an inbound webhook payload. -/
inductive JVal where
  | null
  | bool (b : Bool)
  | num (n : Int)
  | str (s : String)
  | arr (elems : List JVal)
  | obj (fields : List (String × JVal))

/-- Python truthiness of a JSON value (`if ... and data:`). -/
def JVal.truthyJ : JVal → Bool
  | .null => false
  | .bool b => b
  | .num n => !(n == 0)
  | .str s => !(s == "")
  | .arr l => !l.isEmpty
  | .obj l => !l.isEmpty

/-- Python `dict.get` on a decoded JSON object (keys are unique in a
parsed object): the value bound to the key, or `None`. -/
def jget : List (String × JVal) → String → Option JVal
  | [], _ => none
  | (k, v) :: rest, key => if k = key then some v else jget rest key

/-- The event value used for dispatch:
`payload.get("event") or payload.get("event_type")` — the second lookup
is taken whenever the first yields a falsy value (including `None`). -/
def webhook_event (fields : List (String × JVal)) : Option JVal :=
  let e := jget fields "event"
  if (match e with
      | some v => v.truthyJ
      | none => false) then e
  else jget fields "event_type"

/-- Python `event in ["message.created", "message.ack.updated"]`: true
only when the looked-up value is one of those strings (`None` or any
non-string JSON value compares unequal). -/
def is_recognized : Option JVal → Bool
  | some (.str s) => s == "message.created" || s == "message.ack.updated"
  | _ => false

/-- HTTP outcome of the webhook endpoint: the ok body, the 400 raised on
undecodable JSON, or the 500 produced by the unhandled `AttributeError`
when `payload.get` is called on a decoded non-object body. -/
inductive WebhookResp where
  | ok
  | badRequest
  | serverError
deriving DecidableEq

/-- Observable outcome of the webhook endpoint: the response and whether a
background enrichment task was scheduled. -/
structure WebhookOut where
  resp : WebhookResp
  scheduled : Bool
deriving DecidableEq

/-- The inbound webhook endpoint (`webhook`): a body that fails JSON
decoding (`none`) is rejected with a 400; a body that decodes to a JSON
object is answered `{"status": "ok"}`, with a background task scheduled
exactly when the dispatch event is recognized and the `data` field is
present and truthy; a body that decodes to any non-object JSON value
(list, number, string, boolean, null) makes `payload.get("event")` raise
an unhandled `AttributeError`, answered as a 500. -/
def webhook (input : Option JVal) : WebhookOut :=
  match input with
  | none => { resp := .badRequest, scheduled := false }
  | some (.obj fields) =>
    let dataTruthy := match jget fields "data" with
      | some d => d.truthyJ
      | none => false
    { resp := .ok,
      scheduled := is_recognized (webhook_event fields) && dataTruthy }
  | some _ => { resp := .serverError, scheduled := false }

/-! ### Helper lemmas -/

/-- A fetch outcome other than a parsed 200 response. -/
def FetchResult.isFailure : FetchResult → Bool
  | .ok _ _ => false
  | _ => true

theorem truthy_eq_false_iff (o : Option String) :
    truthy o = false ↔ o = none ∨ o = some "" := by
  cases o with
  | none => simp [truthy]
  | some s => simp [truthy]

theorem truthy_eq_true_iff (o : Option String) :
    truthy o = true ↔ ∃ s, o = some s ∧ s ≠ "" := by
  cases o with
  | none => simp [truthy]
  | some s => simp [truthy]

theorem save_same (c : Cache) (id nm : String) :
    save_chat_name_to_cache c id nm id = some nm := by
  simp [save_chat_name_to_cache]

theorem save_other (c : Cache) (id nm k : String) (h : k ≠ id) :
    save_chat_name_to_cache c id nm k = c k := by
  simp [save_chat_name_to_cache, h]

theorem get_chat_name_hit (env : DirEnv) (c : Cache) (id n : String)
    (h : c id = some n) (hn : n ≠ "") : get_chat_name env c id = (n, c) := by
  simp [get_chat_name, get_chat_name_from_cache, h, hn]

theorem get_chat_name_suffix_hit (env : DirEnv) (c : Cache) (id n : String)
    (hd : pyIsDigit id = true) (h1 : truthy (c id) = false)
    (h : c (id ++ "@c.us") = some n) (hn : n ≠ "") :
    get_chat_name env c id = (n, c) := by
  rcases (truthy_eq_false_iff _).1 h1 with h0 | h0 <;>
    simp [get_chat_name, get_chat_name.get_chat_name_suffix,
      get_chat_name_from_cache, h0, hd, h, hn]

theorem get_chat_name_miss (env : DirEnv) (c : Cache) (id : String)
    (h1 : truthy (c id) = false)
    (h2 : truthy (c (id ++ "@c.us")) = false) :
    get_chat_name env c id = get_chat_name.get_chat_name_api env c id := by
  rcases (truthy_eq_false_iff _).1 h1 with h0 | h0 <;>
    rcases (truthy_eq_false_iff _).1 h2 with hs | hs <;>
    by_cases hd : pyIsDigit id = true <;>
    simp [get_chat_name, get_chat_name.get_chat_name_suffix,
      get_chat_name_from_cache, h0, hs, hd]

theorem get_chat_name_api_fail (env : DirEnv) (c : Cache) (id : String)
    (h : env.creds = false ∨ (env.fetchChat id).isFailure = true) :
    get_chat_name.get_chat_name_api env c id = (id, c) := by
  rcases h with h | h
  · simp [get_chat_name.get_chat_name_api, h]
  · unfold get_chat_name.get_chat_name_api
    cases hcr : env.creds
    · simp
    · cases hf : env.fetchChat id <;>
        simp_all [FetchResult.isFailure]

theorem get_chat_name_api_ok (env : DirEnv) (c : Cache) (id : String)
    (nf : Option String) (ms : List (String × Option String))
    (hcr : env.creds = true) (hf : env.fetchChat id = .ok nf ms) :
    get_chat_name.get_chat_name_api env c id =
      (nf.getD id,
       cache_members ms (save_chat_name_to_cache c id (nf.getD id))) := by
  simp [get_chat_name.get_chat_name_api, hcr, hf]

/-- `cache_members` never changes an entry that is present and nonempty. -/
theorem cache_members_preserve (ms : List (String × Option String)) :
    ∀ (c : Cache) (k n : String), c k = some n → n ≠ "" →
      cache_members ms c k = some n := by
  induction ms with
  | nil => intro c k n h hn; simpa [cache_members] using h
  | cons hd tl ih =>
    intro c k n h hn
    obtain ⟨cid, cnm⟩ := hd
    cases cnm with
    | none => simpa [cache_members] using ih c k n h hn
    | some nm =>
      by_cases hg : nm ≠ "" ∧ cid ≠ ""
      · by_cases ht : truthy (get_chat_name_from_cache c cid) = true
        · simpa [cache_members, hg, ht] using ih c k n h hn
        · have ht' : truthy (get_chat_name_from_cache c cid) = false := by
            simpa using ht
          by_cases hk : k = cid
          · subst hk
            rcases (truthy_eq_false_iff _).1 ht' with h0 | h0 <;>
              simp_all [get_chat_name_from_cache]
          · have : save_chat_name_to_cache c cid nm k = some n := by
              simpa [save_other c cid nm k hk] using h
            simpa [cache_members, hg, ht'] using
              ih (save_chat_name_to_cache c cid nm) k n this hn
      · simpa [cache_members, hg] using ih c k n h hn

/-- `cache_members` adds entries only at member-id keys. -/
theorem cache_members_new_keys (ms : List (String × Option String)) :
    ∀ (c : Cache) (k : String), c k = none → cache_members ms c k ≠ none →
      k ∈ ms.map Prod.fst := by
  induction ms with
  | nil => intro c k h hne; simp [cache_members, h] at hne
  | cons hd tl ih =>
    intro c k h hne
    obtain ⟨cid, cnm⟩ := hd
    cases cnm with
    | none =>
      simp only [cache_members] at hne
      exact List.mem_cons_of_mem _ (ih c k h hne)
    | some nm =>
      by_cases hg : nm ≠ "" ∧ cid ≠ ""
      · by_cases ht : truthy (get_chat_name_from_cache c cid) = true
        · simp only [cache_members] at hne
          rw [if_pos hg, if_pos ht] at hne
          exact List.mem_cons_of_mem _ (ih c k h hne)
        · simp only [cache_members] at hne
          rw [if_pos hg, if_neg ht] at hne
          by_cases hk : k = cid
          · simp [hk]
          · have h' : save_chat_name_to_cache c cid nm k = none := by
              simpa [save_other c cid nm k hk] using h
            exact List.mem_cons_of_mem _
              (ih (save_chat_name_to_cache c cid nm) k h' hne)
      · simp only [cache_members] at hne
        rw [if_neg hg] at hne
        exact List.mem_cons_of_mem _ (ih c k h hne)

/-- `bulk_cache_members` never changes an entry that is present and
nonempty (it writes only behind the same absence guard as
`cache_members`). -/
theorem bulk_cache_members_preserve (ms : List (String × Option String)) :
    ∀ (st : BulkState) (k n : String), st.cache k = some n → n ≠ "" →
      (bulk_cache_members ms st).cache k = some n := by
  induction ms with
  | nil => intro st k n h hn; simpa [bulk_cache_members] using h
  | cons hd tl ih =>
    intro st k n h hn
    obtain ⟨cid, cnm⟩ := hd
    cases cnm with
    | none => simpa [bulk_cache_members] using ih st k n h hn
    | some nm =>
      by_cases hg : nm ≠ "" ∧ cid ≠ ""
      · by_cases ht : truthy (get_chat_name_from_cache st.cache cid) = true
        · simpa [bulk_cache_members, hg, ht] using ih st k n h hn
        · have ht' : truthy (get_chat_name_from_cache st.cache cid) = false := by
            simpa using ht
          by_cases hk : k = cid
          · subst hk
            rcases (truthy_eq_false_iff _).1 ht' with h0 | h0 <;>
              simp_all [get_chat_name_from_cache]
          · have h' :
                save_chat_name_to_cache st.cache cid nm k = some n := by
              simpa [save_other st.cache cid nm k hk] using h
            simp only [bulk_cache_members]
            rw [if_pos hg, if_neg ht]
            exact ih _ k n h' hn
      · simpa [bulk_cache_members, hg] using ih st k n h hn

/-- `bulk_cache_chat` never changes an entry that is present and nonempty:
the chat write is guarded by the same absence check as member writes. -/
theorem bulk_cache_chat_preserve (chat : ChatEntry) (st : BulkState)
    (k n : String) (h : st.cache k = some n) (hn : n ≠ "") :
    (bulk_cache_chat chat st).cache k = some n := by
  unfold bulk_cache_chat
  apply bulk_cache_members_preserve
  · cases hcid : chat.chat_id with
    | none => simpa [hcid] using h
    | some cid =>
      cases hcnm : chat.chat_name with
      | none => simpa [hcid, hcnm] using h
      | some cnm =>
        by_cases hg : cid ≠ "" ∧ cnm ≠ ""
        · by_cases ht : truthy (get_chat_name_from_cache st.cache cid) = true
          · simpa [hcid, hcnm, hg, ht] using h
          · by_cases hk : k = cid
            · subst hk
              rcases (truthy_eq_false_iff _).1 (by simpa using ht) with h0 | h0 <;>
                simp_all [get_chat_name_from_cache]
            · simp only [hcid, hcnm]
              rw [if_pos hg, if_neg ht]
              simpa [save_other st.cache cid cnm k hk] using h
        · simpa [hcid, hcnm, hg] using h
  · exact hn

/-- Nonempty entries survive the whole bulk-sync fold. -/
theorem bulk_fold_preserve (chats : List ChatEntry) :
    ∀ (st : BulkState) (k n : String), st.cache k = some n → n ≠ "" →
      (chats.foldl (fun st chat => bulk_cache_chat chat st) st).cache k
        = some n := by
  induction chats with
  | nil => intro st k n h _; simpa using h
  | cons hd tl ih =>
    intro st k n h hn
    exact ih _ k n (bulk_cache_chat_preserve hd st k n h hn) hn

/-- After its own step, a chat with truthy id and name has a truthy cache
entry (pre-existing or newly written). -/
theorem bulk_cache_chat_truthy_self (chat : ChatEntry) (st : BulkState)
    (cid cnm : String) (hcid : chat.chat_id = some cid)
    (hcnm : chat.chat_name = some cnm) (h1 : cid ≠ "") (h2 : cnm ≠ "") :
    ∃ n, (bulk_cache_chat chat st).cache cid = some n ∧ n ≠ "" := by
  by_cases ht : truthy (get_chat_name_from_cache st.cache cid) = true
  · obtain ⟨n, hcn, hn⟩ := (truthy_eq_true_iff _).1 ht
    refine ⟨n, ?_, hn⟩
    unfold bulk_cache_chat
    apply bulk_cache_members_preserve
    · simpa [hcid, hcnm, h1, h2, ht] using hcn
    · exact hn
  · refine ⟨cnm, ?_, h2⟩
    unfold bulk_cache_chat
    apply bulk_cache_members_preserve
    · simp only [hcid, hcnm]
      rw [if_pos ⟨h1, h2⟩, if_neg ht]
      exact save_same _ _ _
    · exact h2

/-- Every chat of the listing with truthy id and name ends the bulk fold
with a truthy cache entry. -/
theorem bulk_fold_truthy (chats : List ChatEntry) :
    ∀ (st : BulkState), ∀ chat ∈ chats, ∀ cid cnm,
      chat.chat_id = some cid → chat.chat_name = some cnm →
      cid ≠ "" → cnm ≠ "" →
      ∃ n, (chats.foldl (fun st chat => bulk_cache_chat chat st) st).cache cid
        = some n ∧ n ≠ "" := by
  induction chats with
  | nil => intro st chat hmem; simp at hmem
  | cons hd tl ih =>
    intro st chat hmem cid cnm hcid hcnm h1 h2
    rcases List.mem_cons.1 hmem with rfl | hmem
    · obtain ⟨n, hcn, hn⟩ :=
        bulk_cache_chat_truthy_self chat st cid cnm hcid hcnm h1 h2
      exact ⟨n, bulk_fold_preserve tl _ cid n hcn hn, hn⟩
    · exact ih _ chat hmem cid cnm hcid hcnm h1 h2

/-- When every mention of the list already resolves through a nonempty
cache hit, the mention loop leaves the cache untouched. -/
theorem replace_mentions_go_cache (env : DirEnv)
    (ms : List String) :
    ∀ (body : String) (c : Cache),
      (∀ ph ∈ ms, ∃ n, c ph = some n ∧ n ≠ "") →
      (replace_mentions_go env ms body c).2 = c := by
  induction ms with
  | nil => intro body c _; simp [replace_mentions_go]
  | cons ph tl ih =>
    intro body c hc
    obtain ⟨n, hn, hne⟩ := hc ph (List.mem_cons_self _ _)
    have hres : get_chat_name env c ph = (n, c) :=
      get_chat_name_hit env c ph n hn hne
    have htl : ∀ q ∈ tl, ∃ m, c q = some m ∧ m ≠ "" :=
      fun q hq => hc q (List.mem_cons_of_mem _ hq)
    by_cases hcond : n ≠ "" ∧ n ≠ ph <;>
      simp [replace_mentions_go, hres, hcond, ih _ c htl]

/-- The identifiers the enrichment pipeline resolves for a given event:
the chat id when present, the sender phone when present on a message not
from the owner, and every mention token of a truthy body. -/
def consulted_ids (d : MsgData) : List String :=
  (match d.chat_id with
   | some cid => [cid]
   | none => []) ++
  (match d.sender_phone with
   | some sp => if !d.from_me then [sp] else []
   | none => []) ++
  (match d.body with
   | some b => if b ≠ "" then findMentions b else []
   | none => [])

/-- When every consulted identifier is already cached with a nonempty
name, enrichment reads the cache but never writes it. -/
theorem enrich_doc_cache_stable (env : DirEnv) (c : Cache) (event : String)
    (d : MsgData)
    (hc : ∀ id ∈ consulted_ids d, ∃ n, c id = some n ∧ n ≠ "") :
    (enrich_doc env c event d).2 = c := by
  have hmem : ∀ (x : String),
      (x ∈ (match d.chat_id with
            | some cid => [cid]
            | none => []) ∨
       x ∈ (match d.sender_phone with
            | some sp => if !d.from_me then [sp] else []
            | none => []) ∨
       x ∈ (match d.body with
            | some b => if b ≠ "" then findMentions b else []
            | none => [])) → ∃ n, c x = some n ∧ n ≠ "" := by
    intro x hx
    apply hc
    unfold consulted_ids
    rcases hx with hx | hx | hx
    · exact List.mem_append_left _ (List.mem_append_left _ hx)
    · exact List.mem_append_left _ (List.mem_append_right _ hx)
    · exact List.mem_append_right _ hx
  have hchat : ∀ cid, d.chat_id = some cid →
      ∃ n, get_chat_name env c cid = (n, c) := by
    intro cid h
    obtain ⟨n, hn, hne⟩ := hmem cid (Or.inl (by simp [h]))
    exact ⟨n, get_chat_name_hit env c cid n hn hne⟩
  have hsend : ∀ sp, d.sender_phone = some sp → d.from_me = false →
      ∃ n, get_chat_name env c sp = (n, c) := by
    intro sp h hf
    obtain ⟨n, hn, hne⟩ := hmem sp (Or.inr (Or.inl (by simp [h, hf])))
    exact ⟨n, get_chat_name_hit env c sp n hn hne⟩
  have hbody : ∀ b, d.body = some b → b ≠ "" →
      (replace_mentions env c b).2 = c := by
    intro b h hbe
    apply replace_mentions_go_cache
    intro ph hph
    exact hmem ph (Or.inr (Or.inr (by simp [h, hbe, hph])))
  rcases hcid : d.chat_id with _ | cid <;>
    rcases hsp : d.sender_phone with _ | sp <;>
    rcases hb : d.body with _ | b
  · simp [enrich_doc, hcid, hsp, hb]
  · by_cases hbe : b = "" <;>
      simp [enrich_doc, hcid, hsp, hb, hbe, hbody b hb]
  · cases hfm : d.from_me
    · obtain ⟨n2, e2⟩ := hsend sp hsp hfm
      simp [enrich_doc, hcid, hsp, hb, hfm, e2]
    · simp [enrich_doc, hcid, hsp, hb, hfm]
  · cases hfm : d.from_me
    · obtain ⟨n2, e2⟩ := hsend sp hsp hfm
      by_cases hbe : b = "" <;>
        simp [enrich_doc, hcid, hsp, hb, hfm, hbe, e2, hbody b hb]
    · by_cases hbe : b = "" <;>
        simp [enrich_doc, hcid, hsp, hb, hfm, hbe, hbody b hb]
  · obtain ⟨n1, e1⟩ := hchat cid hcid
    simp [enrich_doc, hcid, hsp, hb, e1]
  · obtain ⟨n1, e1⟩ := hchat cid hcid
    by_cases hbe : b = "" <;>
      simp [enrich_doc, hcid, hsp, hb, hbe, e1, hbody b hb]
  · obtain ⟨n1, e1⟩ := hchat cid hcid
    cases hfm : d.from_me
    · obtain ⟨n2, e2⟩ := hsend sp hsp hfm
      simp [enrich_doc, hcid, hsp, hb, hfm, e1, e2]
    · simp [enrich_doc, hcid, hsp, hb, hfm, e1]
  · obtain ⟨n1, e1⟩ := hchat cid hcid
    cases hfm : d.from_me
    · obtain ⟨n2, e2⟩ := hsend sp hsp hfm
      by_cases hbe : b = "" <;>
        simp [enrich_doc, hcid, hsp, hb, hfm, hbe, e1, e2, hbody b hb]
    · by_cases hbe : b = "" <;>
        simp [enrich_doc, hcid, hsp, hb, hfm, hbe, e1, hbody b hb]

/-- The pipeline's final cache is the enrichment cache, whichever indexing
branch is taken. -/
theorem process_cache (env : DirEnv) (event : String) (d : MsgData)
    (st : ESState) :
    (process_webhook_message env event d st).cache
      = (enrich_doc env st.cache event d).2 := by
  unfold process_webhook_message
  cases hmid : (if truthy d.message_id then d.message_id
      else (enrich_doc env st.cache event d).1.idScalar) with
  | none => simp [hmid]
  | some m => by_cases hm : m ≠ "" <;> simp [hmid, hm]

/-- Shape of a pipeline run for an event carrying a truthy `message_id`:
the enriched document overwrites the index entry at that key and the
unkeyed list is untouched. -/
theorem process_keyed (env : DirEnv) (event : String) (d : MsgData)
    (st : ESState) (m : String) (hm : d.message_id = some m)
    (hm' : m ≠ "") :
    process_webhook_message env event d st =
      { cache := (enrich_doc env st.cache event d).2,
        msgs := fun x => if x = m
          then some (enrich_doc env st.cache event d).1 else st.msgs x,
        unkeyed := st.unkeyed } := by
  unfold process_webhook_message
  simp [hm, truthy, hm']

/-- `cache_members` never removes a key that is present. -/
theorem cache_members_keeps (ms : List (String × Option String)) :
    ∀ (c : Cache) (k : String), c k ≠ none → cache_members ms c k ≠ none := by
  induction ms with
  | nil => intro c k h; simpa [cache_members] using h
  | cons hd tl ih =>
    intro c k h
    obtain ⟨cid, cnm⟩ := hd
    cases cnm with
    | none => simpa [cache_members] using ih c k h
    | some nm =>
      by_cases hg : nm ≠ "" ∧ cid ≠ ""
      · by_cases ht : truthy (get_chat_name_from_cache c cid) = true
        · simp only [cache_members]
          rw [if_pos hg, if_pos ht]
          exact ih c k h
        · simp only [cache_members]
          rw [if_pos hg, if_neg ht]
          apply ih
          by_cases hk : k = cid
          · subst hk; simp [save_same]
          · simpa [save_other c cid nm k hk] using h
      · simp only [cache_members]
        rw [if_neg hg]
        exact ih c k h

/-! ### Claim theorems -/

/-- C1: cache resolution (`get_chat_name`) never propagates an error — it
is a total function into `String × Cache` — and degrades to the identifier
itself: when neither the identifier nor its `@c.us` form has a truthy
cache entry, it returns `id` with the store unwritten both when the
directory credentials are not configured and under every directory-call
failure mode (non-2xx status, network error, malformed body). -/
theorem C1_resolve_never_fails_degrades (env : DirEnv) (c : Cache)
    (id : String)
    (h1 : truthy (c id) = false)
    (h2 : truthy (c (id ++ "@c.us")) = false)
    (h3 : env.creds = false ∨ (env.fetchChat id).isFailure = true) :
    get_chat_name env c id = (id, c) := by
  rw [get_chat_name_miss env c id h1 h2]
  exact get_chat_name_api_fail env c id h3

/-- C1 witness: with an empty cache and unconfigured credentials, a lookup
returns the identifier itself and leaves the store untouched. -/
theorem C1_witness :
    get_chat_name ⟨none, none, fun _ => .netError, .netError⟩
      (fun _ => none) "8123" = ("8123", fun _ => none) :=
  C1_resolve_never_fails_degrades
    ⟨none, none, fun _ => .netError, .netError⟩ (fun _ => none) "8123"
    (by decide) (by decide) (Or.inl rfl)

/-- C2: the OTP verification state machine — no stored session fails "not
requested"; an expired session (`now > expiresAt`) is deleted and fails
"expired" regardless of the submitted code; a mismatching code fails
"invalid" without deleting the session, so a later verify with the stored
code before expiry is accepted; an exact match deletes the session and is
accepted, after which the same code is "not requested". -/
theorem C2_verify_otp_state_machine (s : OtpStore) (now now2 : Int)
    (p code : String) (hp : p ≠ "") (hc : code ≠ "") :
    (s p = none →
      verify_otp s now (some p) (some code) = (.notRequested, s)) ∧
    (∀ e, s p = some e → now > e.expires →
      verify_otp s now (some p) (some code) = (.expired, otp_erase s p)) ∧
    (∀ e, s p = some e → ¬ now > e.expires → code ≠ e.otp →
      verify_otp s now (some p) (some code) = (.invalid, s) ∧
      (e.otp ≠ "" → ¬ now2 > e.expires →
        verify_otp s now2 (some p) (some e.otp)
          = (.accepted, otp_erase s p))) ∧
    (∀ e, s p = some e → ¬ now > e.expires → code = e.otp →
      verify_otp s now (some p) (some code) = (.accepted, otp_erase s p) ∧
      (verify_otp (otp_erase s p) now2 (some p) (some code)).1
        = .notRequested) := by
  refine ⟨?_, ?_, ?_, ?_⟩
  · intro h
    simp [verify_otp, hp, hc, h]
  · intro e he hgt
    simp [verify_otp, hp, hc, he, hgt]
  · intro e he hle hne
    refine ⟨?_, ?_⟩
    · simp [verify_otp, hp, hc, he, hle, Ne.symm hne]
    · intro hne2 hle2
      simp [verify_otp, hp, hne2, he, hle2]
  · intro e he hle heq
    subst heq
    refine ⟨?_, ?_⟩
    · simp [verify_otp, hp, hc, he, hle]
    · simp [verify_otp, hp, hc, otp_erase]

/-- C2 witness: a wrong code is rejected as invalid without consuming the
session, then the stored code is still accepted. -/
theorem C2_witness :
    (verify_otp
      (fun x => if x = "p1" then some ⟨"111111", (100 : Int)⟩ else none)
      50 (some "p1") (some "222222")).1 = .invalid ∧
    (verify_otp
      (fun x => if x = "p1" then some ⟨"111111", (100 : Int)⟩ else none)
      50 (some "p1") (some "111111")).1 = .accepted := by
  have h := C2_verify_otp_state_machine
    (fun x => if x = "p1" then some ⟨"111111", (100 : Int)⟩ else none)
    50 50 "p1" "222222" (by decide) (by decide)
  obtain ⟨-, -, h3, -⟩ := h
  have h3' := h3 ⟨"111111", 100⟩ rfl (by norm_num) (by decide)
  refine ⟨by rw [h3'.1], by rw [h3'.2 (by decide) (by norm_num)]⟩

/-- C3 counterexample: the claim says bulk sync writes a chat's name
unconditionally (overwrite), but the source guards the chat write with an
absence check: a chat already cached as "Old" keeps "Old" even though the
bulk listing carries "New" for it. -/
theorem C3_counterexample :
    (bulk_fetch_and_cache_groups
      { apiKey := some "k", orgPhone := some "p",
        fetchChat := fun _ => .netError,
        fetchAllChats := .ok
          [{ chat_id := some "g1", chat_name := some "New", members := [] }] }
      (fun x => if x = "g1" then some "Old" else none)).2 "g1" = some "Old"
    ∧ ("Old" : String) ≠ "New" := ⟨by decide, by decide⟩

/-- C3 amended: bulk sync uses write-if-absent for chats as well as
members — it never changes any truthy pre-existing entry (chat or member),
and every listed chat with truthy id and name ends up with a truthy cache
entry. -/
theorem C3_bulk_write_if_absent (env : DirEnv) (c : Cache) :
    (∀ id n, c id = some n → n ≠ "" →
      (bulk_fetch_and_cache_groups env c).2 id = some n) ∧
    (∀ chats, env.creds = true → env.fetchAllChats = .ok chats →
      ∀ chat ∈ chats, ∀ cid cnm, chat.chat_id = some cid →
        chat.chat_name = some cnm → cid ≠ "" → cnm ≠ "" →
        ∃ n, (bulk_fetch_and_cache_groups env c).2 cid = some n ∧ n ≠ "")
    := by
  constructor
  · intro id n h hn
    unfold bulk_fetch_and_cache_groups
    cases hcr : env.creds
    · simpa using h
    · cases hf : env.fetchAllChats with
      | ok chats => simpa using bulk_fold_preserve chats ⟨c, 0, 0⟩ id n h hn
      | badStatus code => simpa using h
      | netError => simpa using h
  · intro chats hcr hf chat hmem cid cnm hcid hcnm h1 h2
    simp only [bulk_fetch_and_cache_groups, hcr, hf, if_true]
    exact bulk_fold_truthy chats ⟨c, 0, 0⟩ chat hmem cid cnm hcid hcnm h1 h2

/-- C3 witness: an already-cached entry survives a bulk pass that lists a
new chat. -/
theorem C3_witness :
    (bulk_fetch_and_cache_groups
      { apiKey := some "k", orgPhone := some "p",
        fetchChat := fun _ => .netError,
        fetchAllChats := .ok
          [{ chat_id := some "g2", chat_name := some "Fresh",
             members := [] }] }
      (fun x => if x = "keep" then some "Name" else none)).2 "keep"
      = some "Name" :=
  (C3_bulk_write_if_absent _ _).1 "keep" "Name" (by decide) (by decide)

/-- C4 counterexample: a member entry that pre-existed with the empty
string as its stored name is treated as absent by the write guard and is
overwritten during a successful group resolution, refuting "every member
entry that existed before is unchanged". -/
theorem C4_counterexample :
    ((fun x => if x = "m" then some "" else none : Cache) "m" = some "") ∧
    ((get_chat_name
      { apiKey := some "k", orgPhone := some "p",
        fetchChat := fun id =>
          if id = "g" then .ok (some "G") [("m", some "Bob")]
          else .netError,
        fetchAllChats := .netError }
      (fun x => if x = "m" then some "" else none) "g").2 "m" = some "Bob")
    := ⟨by decide, by decide⟩

/-- C4 amended: after a successful directory resolution of a chat with N
listed members, the store has an entry for the chat id, the only keys
added are the chat id and member ids (hence at most N member entries are
added), and every pre-existing entry with a **nonempty** stored name is
unchanged — a member entry is written only when nothing truthy is found
for its id (an empty-string entry counts as absent and may be
overwritten). -/
theorem C4_members_frame (env : DirEnv) (c : Cache) (chat_id : String)
    (nf : Option String) (ms : List (String × Option String))
    (hcr : env.creds = true)
    (h1 : truthy (c chat_id) = false)
    (h2 : truthy (c (chat_id ++ "@c.us")) = false)
    (hf : env.fetchChat chat_id = .ok nf ms) :
    ((get_chat_name env c chat_id).2 chat_id ≠ none) ∧
    (∀ k, c k = none → (get_chat_name env c chat_id).2 k ≠ none →
      k = chat_id ∨ k ∈ ms.map Prod.fst) ∧
    (∀ m n, c m = some n → n ≠ "" →
      (get_chat_name env c chat_id).2 m = some n) := by
  have hres : get_chat_name env c chat_id
      = (nf.getD chat_id,
         cache_members ms
           (save_chat_name_to_cache c chat_id (nf.getD chat_id))) := by
    rw [get_chat_name_miss env c chat_id h1 h2]
    exact get_chat_name_api_ok env c chat_id nf ms hcr hf
  rw [hres]
  refine ⟨?_, ?_, ?_⟩
  · exact cache_members_keeps ms _ chat_id (by simp [save_same])
  · intro k hk hne
    by_cases hkc : k = chat_id
    · exact Or.inl hkc
    · refine Or.inr (cache_members_new_keys ms _ k ?_ hne)
      simpa [save_other c chat_id _ k hkc] using hk
  · intro m n hm hn
    have hmc : m ≠ chat_id := by
      rintro rfl
      rcases (truthy_eq_false_iff _).1 h1 with h0 | h0 <;> simp_all
    apply cache_members_preserve ms _ m n _ hn
    simpa [save_other c chat_id _ m hmc] using hm

/-- C4 witness: a concrete successful group resolution leaves a chat entry
and keeps an unrelated truthy entry unchanged. -/
theorem C4_witness :
    ((get_chat_name
      { apiKey := some "k", orgPhone := some "p",
        fetchChat := fun id =>
          if id = "g" then .ok (some "G") [("u1", some "Alice")]
          else .netError,
        fetchAllChats := .netError }
      (fun x => if x = "z" then some "Zed" else none) "g").2 "g" ≠ none) ∧
    ((get_chat_name
      { apiKey := some "k", orgPhone := some "p",
        fetchChat := fun id =>
          if id = "g" then .ok (some "G") [("u1", some "Alice")]
          else .netError,
        fetchAllChats := .netError }
      (fun x => if x = "z" then some "Zed" else none) "g").2 "z"
        = some "Zed") := by
  have h := C4_members_frame
    { apiKey := some "k", orgPhone := some "p",
      fetchChat := fun id =>
        if id = "g" then .ok (some "G") [("u1", some "Alice")]
        else .netError,
      fetchAllChats := .netError }
    (fun x => if x = "z" then some "Zed" else none) "g"
    (some "G") [("u1", some "Alice")]
    (by decide) (by decide) (by decide) (by decide)
  exact ⟨h.1, h.2.2 "z" "Zed" (by decide) (by decide)⟩

/-- C5 counterexample: an identifier present in the store with the empty
string as stored name is not returned — truthiness makes the hit check
fail and resolution degrades to the identifier itself — refuting "for
every identifier already present in the store, the stored name is
returned". -/
theorem C5_counterexample :
    ((fun x => if x = "abc" then some "" else none : Cache) "abc"
      = some "") ∧
    (get_chat_name ⟨none, none, fun _ => .netError, .netError⟩
      (fun x => if x = "abc" then some "" else none) "abc").1 = "abc" ∧
    ("abc" : String) ≠ "" := ⟨by decide, by decide, by decide⟩

/-- C5 amended: for every identifier with a **nonempty** stored name,
resolution returns that name with the cache unchanged and independently of
the directory environment (so the client is not consulted); likewise for a
purely numeric identifier with no direct entry whose `@c.us` form has a
nonempty entry. -/
theorem C5_cache_hit_no_directory (env : DirEnv) (c : Cache)
    (id n : String) :
    (c id = some n → n ≠ "" → get_chat_name env c id = (n, c)) ∧
    (pyIsDigit id = true → c id = none → c (id ++ "@c.us") = some n →
      n ≠ "" → get_chat_name env c id = (n, c)) := by
  constructor
  · exact fun h hn => get_chat_name_hit env c id n h hn
  · intro hd h0 hs hn
    exact get_chat_name_suffix_hit env c id n hd (by rw [h0]; rfl) hs hn

/-- C5 witness: a direct hit and a suffix-fallback hit, both against an
environment whose directory always fails. -/
theorem C5_witness :
    get_chat_name ⟨none, none, fun _ => .netError, .netError⟩
      (fun x => if x = "42" then some "Ans" else none) "42"
      = ("Ans", fun x => if x = "42" then some "Ans" else none) ∧
    get_chat_name ⟨none, none, fun _ => .netError, .netError⟩
      (fun x => if x = "42@c.us" then some "Sfx" else none) "42"
      = ("Sfx", fun x => if x = "42@c.us" then some "Sfx" else none) :=
  ⟨(C5_cache_hit_no_directory _ _ "42" "Ans").1 (by decide) (by decide),
   (C5_cache_hit_no_directory _ _ "42" "Sfx").2 (by decide) (by decide)
     (by decide) (by decide)⟩

/-- C6 counterexample: redelivery is not idempotent in general — here the
chat-id resolution fails on the first run, but the sender's directory
response lists the chat id as a member and back-fills its name, so the
second run stores a different document under the same message id. -/
theorem C6_counterexample :
    (process_webhook_message
      { apiKey := some "k", orgPhone := some "p",
        fetchChat := fun id =>
          if id = "777" then .ok (some "Bob") [("123", some "GroupX")]
          else .netError,
        fetchAllChats := .netError }
      "message.created"
      { chat_id := some "123", sender_phone := some "777",
        from_me := false, body := none, message_id := some "m1",
        idField := none }
      (process_webhook_message
        { apiKey := some "k", orgPhone := some "p",
          fetchChat := fun id =>
            if id = "777" then .ok (some "Bob") [("123", some "GroupX")]
            else .netError,
          fetchAllChats := .netError }
        "message.created"
        { chat_id := some "123", sender_phone := some "777",
          from_me := false, body := none, message_id := some "m1",
          idField := none }
        { cache := fun _ => none, msgs := fun _ => none,
          unkeyed := [] })).msgs "m1"
    ≠ (process_webhook_message
      { apiKey := some "k", orgPhone := some "p",
        fetchChat := fun id =>
          if id = "777" then .ok (some "Bob") [("123", some "GroupX")]
          else .netError,
        fetchAllChats := .netError }
      "message.created"
      { chat_id := some "123", sender_phone := some "777",
        from_me := false, body := none, message_id := some "m1",
        idField := none }
      { cache := fun _ => none, msgs := fun _ => none,
        unkeyed := [] }).msgs "m1" := by decide

/-- C6 amended: the indexed write is an overwrite keyed by the message id
(never a merge), and re-running the pipeline on byte-identical input is a
no-op — the second run reproduces the whole store state — whenever every
identifier the pipeline consults (chat id, sender phone, body mentions) is
already cached with a nonempty name; when the first run's back-fill
changes a later resolution, redelivery instead overwrites with the newly
resolved document. -/
theorem C6_idempotent_when_cached (env : DirEnv) (event : String)
    (d : MsgData) (st : ESState) (m : String)
    (hm : d.message_id = some m) (hm' : m ≠ "")
    (hc : ∀ id ∈ consulted_ids d, ∃ n, st.cache id = some n ∧ n ≠ "") :
    process_webhook_message env event d
      (process_webhook_message env event d st)
      = process_webhook_message env event d st := by
  have hstable := enrich_doc_cache_stable env st.cache event d hc
  have h1 := process_keyed env event d st m hm hm'
  have hcache1 : (process_webhook_message env event d st).cache
      = st.cache := by rw [h1]; exact hstable
  have h2 := process_keyed env event d
    (process_webhook_message env event d st) m hm hm'
  rw [hcache1] at h2
  rw [h2, h1]
  congr 1
  funext x
  by_cases hx : x = m <;> simp [hx]

/-- C6 witness: with the consulted identifiers pre-cached, running the
pipeline twice equals running it once. -/
theorem C6_witness :
    process_webhook_message
      ⟨none, none, fun _ => .netError, .netError⟩ "message.created"
      { chat_id := some "g", sender_phone := none, from_me := false,
        body := none, message_id := some "m1", idField := none }
      (process_webhook_message
        ⟨none, none, fun _ => .netError, .netError⟩ "message.created"
        { chat_id := some "g", sender_phone := none, from_me := false,
          body := none, message_id := some "m1", idField := none }
        { cache := fun x => if x = "g" then some "Grp" else none,
          msgs := fun _ => none, unkeyed := [] })
      = process_webhook_message
        ⟨none, none, fun _ => .netError, .netError⟩ "message.created"
        { chat_id := some "g", sender_phone := none, from_me := false,
          body := none, message_id := some "m1", idField := none }
        { cache := fun x => if x = "g" then some "Grp" else none,
          msgs := fun _ => none, unkeyed := [] } := by
  apply C6_idempotent_when_cached _ _ _ _ "m1" rfl (by decide)
  intro id hid
  have : id = "g" := by
    simpa [consulted_ids, findMentions] using hid
  exact ⟨"Grp", by simp [this], by decide⟩

/-- C7 counterexample: resolution that yields the empty string differs
from the raw digits, yet the body is left unchanged — the source's guard
also requires the resolved name to be truthy, refuting "replaced whenever
the resolved name differs from the digits". -/
theorem C7_counterexample :
    (get_chat_name
      { apiKey := some "k", orgPhone := some "p",
        fetchChat := fun id =>
          if id = "12345" then .ok (some "") [] else .netError,
        fetchAllChats := .netError }
      (fun _ => none) "12345").1 = "" ∧
    ("" : String) ≠ "12345" ∧
    (replace_mentions
      { apiKey := some "k", orgPhone := some "p",
        fetchChat := fun id =>
          if id = "12345" then .ok (some "") [] else .netError,
        fetchAllChats := .netError }
      (fun _ => none) "ping @12345 now").1 = "ping @12345 now" :=
  ⟨by decide, by decide, by decide⟩

/-- C7 amended: for a body whose mention scan finds exactly one token, the
rewrite replaces all occurrences of `"@" + digits` with the resolved name
exactly when that name is **nonempty** and differs from the digits, and
otherwise leaves the body unchanged (in particular when resolution returns
the digits themselves). -/
theorem C7_mention_rewrite (env : DirEnv) (c : Cache) (body phone : String)
    (h : findMentions body = [phone]) :
    replace_mentions env c body =
      (if (get_chat_name env c phone).1 ≠ ""
          ∧ (get_chat_name env c phone).1 ≠ phone
       then pyReplace body ("@" ++ phone) (get_chat_name env c phone).1
       else body,
       (get_chat_name env c phone).2) := by
  unfold replace_mentions
  rw [h]
  by_cases hcond : (get_chat_name env c phone).1 ≠ ""
      ∧ (get_chat_name env c phone).1 ≠ phone <;>
    simp [replace_mentions_go, hcond]

/-- C7 witness: `"ping @12345 now"` becomes `"ping Alice now"` when the
cache resolves the digits to `"Alice"`, and stays unchanged when
resolution returns the digits. -/
theorem C7_witness :
    (replace_mentions ⟨none, none, fun _ => .netError, .netError⟩
      (fun x => if x = "12345" then some "Alice" else none)
      "ping @12345 now").1 = "ping Alice now" ∧
    (replace_mentions ⟨none, none, fun _ => .netError, .netError⟩
      (fun _ => none) "ping @12345 now").1 = "ping @12345 now" := by
  constructor
  · rw [C7_mention_rewrite ⟨none, none, fun _ => .netError, .netError⟩
      (fun x => if x = "12345" then some "Alice" else none)
      "ping @12345 now" "12345" (by decide)]
    decide
  · rw [C7_mention_rewrite ⟨none, none, fun _ => .netError, .netError⟩
      (fun _ => none) "ping @12345 now" "12345" (by decide)]
    decide

/-- C8: divergence between the spec and the endpoint — for a known
application name whose token is unset, the gateway function does return
the config-error dict without attempting the network call, but the
endpoint's `"error" in result` test misses it (the dict's keys are
"status"/"message"), so the HTTP caller receives a 200 "success" response
instead of a configuration error. -/
theorem C8_config_error_swallowed :
    send_meta_whatsapp_otp
      (fun x => if x = "trueharvest"
        then some { token := none, phone_id := some "pid",
                    template := "otp_app" }
        else none)
      { post := fun _ _ => .json false } "9876543210" "123456" "trueharvest"
      = .configError "Credentials missing for trueharvest" ∧
    (send_whatsapp_otp_endpoint
      (fun x => if x = "trueharvest"
        then some { token := none, phone_id := some "pid",
                    template := "otp_app" }
        else none)
      { post := fun _ _ => .json false } "9876543210" "trueharvest"
      "123456" 0 (fun _ => none)).1
      = { statuscode := 200, status := "success",
          message := "OTP sent successfully", otp := some "123456" } :=
  ⟨by decide, by decide⟩

/-- C9 counterexample: a body that fails JSON decoding is answered with a
400 rather than `{"status": "ok"}`; a body that decodes to the JSON array
`[]` makes `payload.get` raise and is answered with a 500; and a
recognized event whose `data` field is present but empty (falsy)
schedules no background work — refuting both "responds ok unconditionally
for every request body" and "schedules iff the event is recognized and a
data field is present". -/
theorem C9_counterexample :
    webhook none = { resp := .badRequest, scheduled := false } ∧
    webhook (some (.arr [])) = { resp := .serverError, scheduled := false } ∧
    webhook (some (.obj [("event", .str "message.created"),
                         ("data", .obj [])]))
      = { resp := .ok, scheduled := false } := ⟨rfl, rfl, by decide⟩

/-- The membership test of the dispatch event, spelled out: recognized
exactly when the looked-up value is one of the two event-name strings. -/
theorem is_recognized_iff (e : Option JVal) :
    is_recognized e = true ↔
      ∃ s, e = some (.str s) ∧
        (s = "message.created" ∨ s = "message.ack.updated") := by
  cases e with
  | none => simp [is_recognized]
  | some v =>
    cases v <;> simp [is_recognized, Bool.or_eq_true, beq_iff_eq]

/-- C9 amended: a request body that decodes to a JSON object is answered
`{"status": "ok"}`, with background work scheduled exactly when the
dispatch event (`event`, else `event_type`) is one of
"message.created"/"message.ack.updated" and the `data` field is present
and truthy; a body that fails JSON decoding is answered with a 400; and a
body that decodes to a non-object JSON value raises an unhandled
`AttributeError` in `payload.get` and is answered with a 500. -/
theorem C9_webhook_ok_and_scheduling (fields : List (String × JVal)) :
    ((webhook (some (.obj fields))).resp = .ok ∧
     ((webhook (some (.obj fields))).scheduled = true ↔
       ((∃ s, webhook_event fields = some (.str s) ∧
          (s = "message.created" ∨ s = "message.ack.updated")) ∧
        ∃ dv, jget fields "data" = some dv ∧ dv.truthyJ = true))) ∧
    webhook none = { resp := .badRequest, scheduled := false } ∧
    (∀ v : JVal, (∀ fs, v ≠ .obj fs) →
      webhook (some v) = { resp := .serverError, scheduled := false }) := by
  refine ⟨⟨rfl, ?_⟩, rfl, ?_⟩
  · simp only [webhook, Bool.and_eq_true, ← is_recognized_iff]
    cases hd : jget fields "data" with
    | none => simp
    | some dv => simp
  · intro v hv
    cases v with
    | obj fs => exact absurd rfl (hv fs)
    | null => rfl
    | bool b => rfl
    | num n => rfl
    | str s => rfl
    | arr l => rfl

/-- C9 witness: a concrete object body with a recognized event and truthy
data is answered ok and scheduled, and a concrete non-object body (the
JSON number 42) is answered with a 500. -/
theorem C9_witness :
    (webhook (some (.obj [("event", .str "message.created"),
                          ("data", .str "x")]))).resp = .ok ∧
    (webhook (some (.obj [("event", .str "message.created"),
                          ("data", .str "x")]))).scheduled = true ∧
    webhook (some (.num 42)) = { resp := .serverError, scheduled := false }
    := by
  have h := C9_webhook_ok_and_scheduling
    [("event", .str "message.created"), ("data", .str "x")]
  refine ⟨h.1.1, ?_, h.2.2 (.num 42) (fun fs heq => by cases heq)⟩
  exact h.1.2.2 ⟨⟨"message.created", rfl, Or.inl rfl⟩,
    ⟨.str "x", rfl, rfl⟩⟩

/-- C10: the send endpoint answers a successful send with the freshly
generated code in plaintext (`otp` field), equal to the code stored in the
session store for that mobile; and the login endpoint returns the code in
plaintext (`dev_otp`) whenever the provider send fails, again equal to the
stored code. -/
theorem C10_otp_plaintext (cfg : AppConfig) (menv : MetaEnv)
    (mobile appName otpGen : String) (now : Int) (s : OtpStore)
    (tc : TenantConfig) (penv : PeriskopeSendEnv) (now2 : Int)
    (p otp2 : String) (s2 : OtpStore)
    (hcfg : cfg (pyLower appName) = some tc)
    (hok : meta_result_has_error_key
      (send_meta_whatsapp_otp cfg menv mobile otpGen (pyLower appName))
        = false)
    (hp : p ≠ "")
    (hfail : ∀ chat t, penv.postOk chat t = false) :
    (send_whatsapp_otp_endpoint cfg menv mobile appName otpGen now s
      = ({ statuscode := 200, status := "success",
           message := "OTP sent successfully", otp := some otpGen },
         otp_insert s mobile ⟨otpGen, now + 300⟩) ∧
     otp_insert s mobile ⟨otpGen, now + 300⟩ mobile
       = some ⟨otpGen, now + 300⟩) ∧
    (login_otp penv now2 (some p) otp2 s2
      = (.devOtp otp2, otp_insert s2 p ⟨otp2, now2 + 300⟩) ∧
     otp_insert s2 p ⟨otp2, now2 + 300⟩ p = some ⟨otp2, now2 + 300⟩) := by
  refine ⟨⟨?_, by simp [otp_insert]⟩, ⟨?_, by simp [otp_insert]⟩⟩
  · simp [send_whatsapp_otp_endpoint, hcfg, hok]
  · have hsend : ∀ t, send_periskope_message penv p t = false := by
      intro t
      unfold send_periskope_message
      split
      · exact hfail _ _
      · rfl
    simp [login_otp, hp, hsend]

/-- C10 witness: a concrete successful send echoes the generated code in
the response and stores the same code; a concrete failed provider send
makes the login endpoint return the code as `dev_otp`. -/
theorem C10_witness :
    (send_whatsapp_otp_endpoint
      (fun x => if x = "app"
        then some { token := some "t", phone_id := some "pid",
                    template := "otp_app" }
        else none)
      { post := fun _ _ => .json false } "9876543210" "app" "654321" 0
      (fun _ => none)).1.otp = some "654321" ∧
    ((send_whatsapp_otp_endpoint
      (fun x => if x = "app"
        then some { token := some "t", phone_id := some "pid",
                    template := "otp_app" }
        else none)
      { post := fun _ _ => .json false } "9876543210" "app" "654321" 0
      (fun _ => none)).2 "9876543210") = some ⟨"654321", 300⟩ ∧
    (login_otp ⟨some "k", some "o", fun _ _ => false⟩ 0 (some "77")
      "111222" (fun _ => none)).1 = .devOtp "111222" := by
  have h := C10_otp_plaintext
    (fun x => if x = "app"
      then some { token := some "t", phone_id := some "pid",
                  template := "otp_app" }
      else none)
    { post := fun _ _ => .json false } "9876543210" "app" "654321" 0
    (fun _ => none)
    { token := some "t", phone_id := some "pid", template := "otp_app" }
    ⟨some "k", some "o", fun _ _ => false⟩ 0 "77" "111222"
    (fun _ => none)
    (by decide) (by decide) (by decide) (fun _ _ => rfl)
  refine ⟨by rw [h.1.1], ?_, by rw [h.2.1]⟩
  rw [h.1.1]
  exact h.1.2

end Whatsapp
